import Mathlib

/-!
Verification development for the rtsp-test-server daemon (src/Server.cpp).

The file shallow-embeds the three testable cores of the program:
configuration resolution (`LoadConfig`), the signal-driven lifecycle
(`SignalHandler` and the event-loop shutdown path), and the declarative
mount-point registration (pipeline templates and the stream catalog).
Every definition is a direct translation of the corresponding C++ code;
log output is modelled as a list of `LogEvent` values in emission order.
-/

namespace RtspTestServer

/-- Embedding of `struct Config { uint16_t port = 9554; }`.  The `uint16_t`
field is modelled as a `Nat`; every store to it is reduced `% 65536` where
the C++ performs the implicit `int → uint16_t` conversion. -/
structure Config where
  port : Nat
  deriving DecidableEq

/-- The default-initialised `Config` (`uint16_t port = 9554`). -/
def defaultConfig : Config := { port := 9554 }

/-- What `LoadConfig` can observe about one candidate configuration
directory: no regular file `rtsp-test-server.conf` there
(`g_file_test` fails), a file that `config_read_file` rejects (with the
error line `config_error_line` would report), or a successfully parsed
file together with the result of `config_lookup_int(&config, "port", ...)`
(`none` when the key is absent or not an integer). -/
inductive DirContent where
  | noFile : DirContent
  | malformed (errLine : Nat) : DirContent
  | parsed (portLookup : Option Int) : DirContent
  deriving DecidableEq

/-- One entry of the deque returned by `ConfigDirs()`: a directory path
together with what the directory contains. -/
structure ConfigDir where
  path : String
  content : DirContent
  deriving DecidableEq

/-- The file-name suffix appended to every configuration directory:
`configDir + "/rtsp-test-server.conf"`. -/
def configFileName : String := "/rtsp-test-server.conf"

/-- Log lines the program can emit, in emission order, abstracted to the
identity of the call site (the formatted payloads that matter to the
claims — file path, error line, signal number — are carried as fields). -/
inductive LogEvent where
  | loadingConfig (file : String) : LogEvent
  | failLoadConfig (file : String) (errLine : Nat) : LogEvent
  | invalidPort : LogEvent
  | criticalCrash (signal : Nat) : LogEvent
  | flushLogs : LogEvent
  | shutdownRequested (signal : Nat) : LogEvent
  | exitingNormally : LogEvent
  | failCreateServer : LogEvent
  | failCreateMountPoints : LogEvent
  deriving DecidableEq

/-- One iteration of the directory loop in `LoadConfig`, acting on the
local accumulator `loadedConfig`.  Returns `none` in the first component
exactly when the C++ executes the early `return` after a
`config_read_file` failure (so the write-back `*config = loadedConfig`
never runs), together with the log lines the iteration emits. -/
def processDir (loaded : Config) (d : ConfigDir) : Option Config × List LogEvent :=
  match d.content with
  | DirContent.noFile => (some loaded, [])
  | DirContent.malformed errLine =>
      (none,
        [LogEvent.loadingConfig (d.path ++ configFileName),
         LogEvent.failLoadConfig (d.path ++ configFileName) errLine])
  | DirContent.parsed none =>
      (some loaded, [LogEvent.loadingConfig (d.path ++ configFileName)])
  | DirContent.parsed (some p) =>
      if 0 < p ∧ p < 65535 then
        (some { loaded with port := p.toNat % 65536 },
          [LogEvent.loadingConfig (d.path ++ configFileName)])
      else
        (some loaded,
          [LogEvent.loadingConfig (d.path ++ configFileName), LogEvent.invalidPort])

/-- The `for(const std::string& configDir: configDirs)` loop of
`LoadConfig`, threading the `loadedConfig` accumulator.  A `none` result
is the early `return` on parse failure; the second component collects the
log lines of the consulted directories only. -/
def loadLoop : Config → List ConfigDir → Option Config × List LogEvent
  | loaded, [] => (some loaded, [])
  | loaded, d :: rest =>
    match processDir loaded d with
    | (none, logs) => (none, logs)
    | (some loaded2, logs) =>
        let r := loadLoop loaded2 rest
        (r.1, logs ++ r.2)

/-- Embedding of `LoadConfig(Config* config)`: the caller's configuration
goes in, and the value `*config` holds afterwards comes out (with the
emitted log lines).  If `ConfigDirs()` is empty the function returns at
once; on a parse failure the early `return` leaves `*config` untouched,
because `*config = loadedConfig` runs only after the loop finishes. -/
def LoadConfig (config : Config) (configDirs : List ConfigDir) : Config × List LogEvent :=
  if configDirs.isEmpty then (config, [])
  else
    match loadLoop config configDirs with
    | (some loaded, logs) => (loaded, logs)
    | (none, logs) => (config, logs)

/-- Whether a directory holds a config file that `config_read_file`
rejects. -/
def isMalformed (d : ConfigDir) : Bool :=
  match d.content with
  | DirContent.malformed _ => true
  | _ => false

/-- The in-range port a directory contributes, if any: the value stored
into `loadedConfig.port` when the directory's file parses and its `port`
key passes the `port > 0 && port < 65535` check. -/
def validPortOf (d : ConfigDir) : Option Nat :=
  match d.content with
  | DirContent.parsed (some p) =>
      if 0 < p ∧ p < 65535 then some (p.toNat % 65536) else none
  | _ => none

/-- The configuration component of `LoadConfig`'s result is the loop's
accumulator when the loop finishes, and the caller's entry value when the
loop aborts early (the write-back is skipped). -/
theorem LoadConfig_fst (c : Config) (dirs : List ConfigDir) :
    (LoadConfig c dirs).1 = ((loadLoop c dirs).1).getD c := by
  cases dirs with
  | nil => simp [LoadConfig, loadLoop]
  | cons d rest =>
    rcases hl : loadLoop c (d :: rest) with ⟨o, logs⟩
    cases o with
    | none => simp [LoadConfig, hl]
    | some x => simp [LoadConfig, hl]

/-- If some directory's file is malformed, the directory loop aborts. -/
theorem loadLoop_abort (loaded : Config) (dirs : List ConfigDir)
    (h : ∃ d ∈ dirs, isMalformed d = true) :
    (loadLoop loaded dirs).1 = none := by
  induction dirs generalizing loaded with
  | nil => simp at h
  | cons d rest ih =>
    cases hc : d.content with
    | malformed errLine => simp [loadLoop, processDir, hc]
    | noFile =>
      have h2 : ∃ x ∈ rest, isMalformed x = true := by
        obtain ⟨e, he, hm⟩ := h
        rcases List.mem_cons.mp he with h1 | h1
        · rw [h1] at hm; simp [isMalformed, hc] at hm
        · exact ⟨e, h1, hm⟩
      simp [loadLoop, processDir, hc, ih _ h2]
    | parsed po =>
      have h2 : ∃ x ∈ rest, isMalformed x = true := by
        obtain ⟨e, he, hm⟩ := h
        rcases List.mem_cons.mp he with h1 | h1
        · rw [h1] at hm; simp [isMalformed, hc] at hm
        · exact ⟨e, h1, hm⟩
      cases po with
      | none => simp [loadLoop, processDir, hc, ih _ h2]
      | some p =>
        by_cases hp : 0 < p ∧ p < 65535 <;>
          simp [loadLoop, processDir, hc, hp, ih _ h2]

/-- If some directory's file is malformed, `LoadConfig` leaves the
caller's configuration at its entry value. -/
theorem LoadConfig_abort (c : Config) (dirs : List ConfigDir)
    (h : ∃ d ∈ dirs, isMalformed d = true) :
    (LoadConfig c dirs).1 = c := by
  rw [LoadConfig_fst, loadLoop_abort c dirs h]
  rfl

/-- The directory loop stops at the first malformed file: everything the
loop produces is independent of the directories after it. -/
theorem loadLoop_stops (loaded : Config) (pre : List ConfigDir) (d : ConfigDir)
    (post post2 : List ConfigDir) (hd : isMalformed d = true) :
    loadLoop loaded (pre ++ d :: post) = loadLoop loaded (pre ++ d :: post2) := by
  induction pre generalizing loaded with
  | nil =>
    cases hc : d.content with
    | malformed errLine => simp [loadLoop, processDir, hc]
    | noFile => simp [isMalformed, hc] at hd
    | parsed po => simp [isMalformed, hc] at hd
  | cons a pre ih =>
    rcases hq : processDir loaded a with ⟨o, logs⟩
    cases o with
    | none => simp [loadLoop, hq]
    | some l2 => simp [loadLoop, hq, ih l2]

/-- `LoadConfig` never consults a directory placed after a malformed
file: its whole result (configuration and log output) is independent of
those directories. -/
theorem LoadConfig_stops (c : Config) (pre : List ConfigDir) (d : ConfigDir)
    (post post2 : List ConfigDir) (hd : isMalformed d = true) :
    LoadConfig c (pre ++ d :: post) = LoadConfig c (pre ++ d :: post2) := by
  have h1 : (pre ++ d :: post).isEmpty = false := by cases pre <;> rfl
  have h2 : (pre ++ d :: post2).isEmpty = false := by cases pre <;> rfl
  simp [LoadConfig, h1, h2, loadLoop_stops c pre d post post2 hd]

/-- In the absence of malformed files the loop commits, and the resulting
port is the last in-range port any directory contributed (the entry port
when none did). -/
theorem loadLoop_lastWins (loaded : Config) (dirs : List ConfigDir)
    (h : ∀ d ∈ dirs, isMalformed d = false) :
    (loadLoop loaded dirs).1 =
      some ⟨(dirs.filterMap validPortOf).getLastD loaded.port⟩ := by
  induction dirs generalizing loaded with
  | nil => simp [loadLoop]
  | cons d rest ih =>
    have hd : isMalformed d = false := h d (List.mem_cons_self d rest)
    have hrest : ∀ x ∈ rest, isMalformed x = false :=
      fun x hx => h x (List.mem_cons_of_mem d hx)
    cases hc : d.content with
    | malformed errLine => simp [isMalformed, hc] at hd
    | noFile => simp [loadLoop, processDir, hc, validPortOf, ih _ hrest]
    | parsed po =>
      cases po with
      | none => simp [loadLoop, processDir, hc, validPortOf, ih _ hrest]
      | some p =>
        by_cases hp : 0 < p ∧ p < 65535
        · have hv : validPortOf d = some (p.toNat % 65536) := by
            simp [validPortOf, hc, hp]
          have hstep := ih { loaded with port := p.toNat % 65536 } hrest
          simp only [loadLoop, processDir, hc, if_pos hp, List.filterMap_cons, hv,
            List.getLastD_cons]
          exact hstep
        · simp [loadLoop, processDir, hc, hp, validPortOf, ih _ hrest]

/-- The loop preserves the port invariant `0 < port < 65535`: every store
to the port is guarded by exactly that range check. -/
theorem loadLoop_preserves (loaded : Config) (dirs : List ConfigDir) (c : Config)
    (h : 0 < loaded.port ∧ loaded.port < 65535)
    (hc : (loadLoop loaded dirs).1 = some c) :
    0 < c.port ∧ c.port < 65535 := by
  induction dirs generalizing loaded with
  | nil =>
    simp [loadLoop] at hc
    rw [← hc]; exact h
  | cons d rest ih =>
    cases hcon : d.content with
    | malformed errLine => simp [loadLoop, processDir, hcon] at hc
    | noFile =>
      simp only [loadLoop, processDir, hcon] at hc
      exact ih loaded h hc
    | parsed po =>
      cases po with
      | none =>
        simp only [loadLoop, processDir, hcon] at hc
        exact ih loaded h hc
      | some p =>
        by_cases hp : 0 < p ∧ p < 65535
        · simp only [loadLoop, processDir, hcon, if_pos hp] at hc
          refine ih { loaded with port := p.toNat % 65536 } ?_ hc
          obtain ⟨hp1, hp2⟩ := hp
          constructor <;> simp <;> omega
        · simp only [loadLoop, processDir, hcon, if_neg hp] at hc
          exact ih loaded h hc

/-- Directories with no config file leave the loop state untouched. -/
theorem loadLoop_noFiles (loaded : Config) (dirs : List ConfigDir)
    (h : ∀ d ∈ dirs, d.content = DirContent.noFile) :
    loadLoop loaded dirs = (some loaded, []) := by
  induction dirs generalizing loaded with
  | nil => simp [loadLoop]
  | cons d rest ih =>
    have hd := h d (List.mem_cons_self d rest)
    simp [loadLoop, processDir, hd,
      ih _ (fun x hx => h x (List.mem_cons_of_mem d hx))]

/-- A directory whose processing step keeps the accumulator and continues
can be dropped from the list without changing the resolved
configuration. -/
theorem loadLoop_skip (loaded : Config) (pre post : List ConfigDir) (d : ConfigDir)
    (hd : ∀ x : Config, (processDir x d).1 = some x) :
    (loadLoop loaded (pre ++ d :: post)).1 = (loadLoop loaded (pre ++ post)).1 := by
  induction pre generalizing loaded with
  | nil =>
    rcases hq : processDir loaded d with ⟨o, logs⟩
    have ho := hd loaded
    rw [hq] at ho
    simp only at ho
    rw [ho] at hq
    simp [loadLoop, hq]
  | cons a pre ih =>
    rcases hq : processDir loaded a with ⟨o, logs⟩
    cases o with
    | none => simp [loadLoop, hq]
    | some l2 => simp [loadLoop, hq, ih l2]

/-- `LoadConfig`-level version of `loadLoop_skip`. -/
theorem LoadConfig_skip (c : Config) (pre post : List ConfigDir) (d : ConfigDir)
    (hd : ∀ x : Config, (processDir x d).1 = some x) :
    (LoadConfig c (pre ++ d :: post)).1 = (LoadConfig c (pre ++ post)).1 := by
  rw [LoadConfig_fst, LoadConfig_fst, loadLoop_skip c pre post d hd]

/-- C1 fails on the code at a concrete input: with the default
configuration and directories `[A, B]` where `A`'s file validly sets
`port = 1000` and `B`'s file is malformed, `LoadConfig` returns port
9554 (its value on entry), not the port 1000 read from the strictly
earlier directory. -/
theorem loadConfig_earlier_port_not_retained :
    (LoadConfig { port := 9554 }
        [⟨"/dirA", DirContent.parsed (some 1000)⟩,
         ⟨"/dirB", DirContent.malformed 3⟩]).1.port = 9554 ∧
    (LoadConfig { port := 9554 }
        [⟨"/dirA", DirContent.parsed (some 1000)⟩,
         ⟨"/dirB", DirContent.malformed 3⟩]).1.port ≠ 1000 := by
  decide

/-- C1 (amended): if, while iterating the configuration directories in
order, parsing a configuration file fails, resolution aborts immediately
— the directories after the malformed one are never consulted, so the
result (configuration and log output alike) does not depend on them —
and the resolver returns the caller's configuration unchanged from its
value on entry; valid ports read from strictly earlier directories are
discarded, not retained. -/
theorem loadConfig_parse_failure_aborts (c : Config) (pre : List ConfigDir)
    (d : ConfigDir) (post post2 : List ConfigDir) (hd : isMalformed d = true) :
    LoadConfig c (pre ++ d :: post) = LoadConfig c (pre ++ d :: post2) ∧
    (LoadConfig c (pre ++ d :: post)).1 = c :=
  ⟨LoadConfig_stops c pre d post post2 hd,
   LoadConfig_abort c (pre ++ d :: post) ⟨d, by simp, hd⟩⟩

/-- C1 (amended) witness at directories `[valid 1000, malformed, valid 2000]`. -/
theorem loadConfig_parse_failure_aborts_witness :
    (LoadConfig { port := 9554 }
        ([⟨"/dirA", DirContent.parsed (some 1000)⟩] ++
          ⟨"/dirB", DirContent.malformed 3⟩ ::
            [⟨"/dirC", DirContent.parsed (some 2000)⟩]) =
      LoadConfig { port := 9554 }
        ([⟨"/dirA", DirContent.parsed (some 1000)⟩] ++
          ⟨"/dirB", DirContent.malformed 3⟩ :: [])) ∧
    (LoadConfig { port := 9554 }
        ([⟨"/dirA", DirContent.parsed (some 1000)⟩] ++
          ⟨"/dirB", DirContent.malformed 3⟩ ::
            [⟨"/dirC", DirContent.parsed (some 2000)⟩])).1 = { port := 9554 } :=
  loadConfig_parse_failure_aborts { port := 9554 }
    [⟨"/dirA", DirContent.parsed (some 1000)⟩]
    ⟨"/dirB", DirContent.malformed 3⟩
    [⟨"/dirC", DirContent.parsed (some 2000)⟩] [] (by decide)

/-- C3: configuration loading is atomic with respect to parse failure —
whenever some directory's file fails to parse, `LoadConfig` leaves the
caller's configuration exactly equal to its value on entry, discarding
any ports read from earlier successfully parsed directories, because the
accumulated configuration is written back only after every directory has
been processed without a parse failure. -/
theorem loadConfig_atomic_on_parse_failure (c : Config) (dirs : List ConfigDir)
    (h : ∃ d ∈ dirs, isMalformed d = true) :
    (LoadConfig c dirs).1 = c :=
  LoadConfig_abort c dirs h

/-- C3 witness: an earlier directory's valid port 1234 is discarded when
a later file is malformed; the entry value 8080 survives. -/
theorem loadConfig_atomic_on_parse_failure_witness :
    (LoadConfig { port := 8080 }
        [⟨"/etc", DirContent.parsed (some 1234)⟩,
         ⟨"/home", DirContent.malformed 7⟩,
         ⟨"/opt", DirContent.parsed (some 4321)⟩]).1 = { port := 8080 } :=
  loadConfig_atomic_on_parse_failure { port := 8080 }
    [⟨"/etc", DirContent.parsed (some 1234)⟩,
     ⟨"/home", DirContent.malformed 7⟩,
     ⟨"/opt", DirContent.parsed (some 4321)⟩]
    ⟨⟨"/home", DirContent.malformed 7⟩, by decide, by decide⟩

/-- C8: when no parse failure occurs, the last directory in iteration
order that supplies a valid port determines the effective port — the
resolved port is the last element of the sequence of in-range ports the
directories contribute, defaulting to the entry port when none does (not
a first-match rule). -/
theorem loadConfig_last_valid_port_wins (c : Config) (dirs : List ConfigDir)
    (h : ∀ d ∈ dirs, isMalformed d = false) :
    (LoadConfig c dirs).1.port = (dirs.filterMap validPortOf).getLastD c.port := by
  rw [LoadConfig_fst, loadLoop_lastWins c dirs h]
  rfl

/-- C8 witness: for directories `[A, B]` where `A` sets port 1000 and `B`
sets port 2000, resolution returns 2000. -/
theorem loadConfig_last_valid_port_wins_witness :
    (LoadConfig { port := 9554 }
        [⟨"/A", DirContent.parsed (some 1000)⟩,
         ⟨"/B", DirContent.parsed (some 2000)⟩]).1.port =
      (([⟨"/A", DirContent.parsed (some 1000)⟩,
         ⟨"/B", DirContent.parsed (some 2000)⟩] :
          List ConfigDir).filterMap validPortOf).getLastD 9554 ∧
    (LoadConfig { port := 9554 }
        [⟨"/A", DirContent.parsed (some 1000)⟩,
         ⟨"/B", DirContent.parsed (some 2000)⟩]).1.port = 2000 :=
  ⟨loadConfig_last_valid_port_wins { port := 9554 }
      [⟨"/A", DirContent.parsed (some 1000)⟩,
       ⟨"/B", DirContent.parsed (some 2000)⟩] (by decide),
   by decide⟩

/-- C9: a successfully parsed file whose `port` value fails the
`port > 0 && port < 65535` check makes the resolver log an error, leave
the previously accumulated port untouched, and continue with the
remaining directories: the step commits (no abort) and the resolved
configuration is the same as if the offending directory were absent. -/
theorem loadConfig_out_of_range_port_ignored (loaded c : Config) (path : String)
    (p : Int) (pre post : List ConfigDir) (hp : ¬(0 < p ∧ p < 65535)) :
    processDir loaded ⟨path, DirContent.parsed (some p)⟩ =
      (some loaded,
        [LogEvent.loadingConfig (path ++ configFileName), LogEvent.invalidPort]) ∧
    (LoadConfig c (pre ++ ⟨path, DirContent.parsed (some p)⟩ :: post)).1 =
      (LoadConfig c (pre ++ post)).1 :=
  ⟨by simp [processDir, hp],
   LoadConfig_skip c pre post ⟨path, DirContent.parsed (some p)⟩
     (fun x => by simp [processDir, hp])⟩

/-- C9 witness: `port = 70000` is ignored and the default is retained. -/
theorem loadConfig_out_of_range_port_ignored_witness :
    processDir { port := 9554 } ⟨"/etc", DirContent.parsed (some 70000)⟩ =
      (some { port := 9554 },
        [LogEvent.loadingConfig ("/etc" ++ configFileName), LogEvent.invalidPort]) ∧
    (LoadConfig { port := 9554 }
        ([] ++ ⟨"/etc", DirContent.parsed (some 70000)⟩ :: [])).1 =
      (LoadConfig { port := 9554 } ([] ++ [])).1 :=
  loadConfig_out_of_range_port_ignored { port := 9554 } { port := 9554 }
    "/etc" 70000 [] [] (by decide)

/-- C10: the port invariant `0 < port < 65535` — the default
configuration has port 9554, resolution preserves the invariant for
every directory list (each store to the port is guarded by exactly that
range check), and when no directory contains the config file, resolution
returns the default configuration with port 9554 unchanged. -/
theorem loadConfig_port_invariant (c : Config) (dirs : List ConfigDir)
    (hc : 0 < c.port ∧ c.port < 65535) :
    defaultConfig.port = 9554 ∧
    (0 < (LoadConfig c dirs).1.port ∧ (LoadConfig c dirs).1.port < 65535) ∧
    ((∀ d ∈ dirs, d.content = DirContent.noFile) →
      (LoadConfig defaultConfig dirs).1 = defaultConfig) := by
  refine ⟨rfl, ?_, ?_⟩
  · rw [LoadConfig_fst]
    rcases hl : (loadLoop c dirs).1 with _ | x
    · simpa using hc
    · simpa using loadLoop_preserves c dirs x hc hl
  · intro hall
    rw [LoadConfig_fst, loadLoop_noFiles defaultConfig dirs hall]
    rfl

/-- C10 witness at a one-directory list without the config file. -/
theorem loadConfig_port_invariant_witness :
    defaultConfig.port = 9554 ∧
    (0 < (LoadConfig defaultConfig [⟨"/etc", DirContent.noFile⟩]).1.port ∧
      (LoadConfig defaultConfig [⟨"/etc", DirContent.noFile⟩]).1.port < 65535) ∧
    ((∀ d ∈ [(⟨"/etc", DirContent.noFile⟩ : ConfigDir)],
        d.content = DirContent.noFile) →
      (LoadConfig defaultConfig [⟨"/etc", DirContent.noFile⟩]).1 = defaultConfig) :=
  loadConfig_port_invariant defaultConfig [⟨"/etc", DirContent.noFile⟩] (by decide)

/-- Linux signal number for SIGINT. -/
def SIGINT : Nat := 2

/-- Linux signal number for SIGILL. -/
def SIGILL : Nat := 4

/-- Linux signal number for SIGABRT. -/
def SIGABRT : Nat := 6

/-- Linux signal number for SIGBUS. -/
def SIGBUS : Nat := 7

/-- Linux signal number for SIGFPE. -/
def SIGFPE : Nat := 8

/-- Linux signal number for SIGSEGV. -/
def SIGSEGV : Nat := 11

/-- Linux signal number for SIGTERM. -/
def SIGTERM : Nat := 15

/-- The crash-class test of `SignalHandler`:
`signal == SIGSEGV || signal == SIGABRT || signal == SIGFPE ||
 signal == SIGBUS || signal == SIGILL`. -/
def isCrashSignal (s : Nat) : Bool :=
  s == SIGSEGV || s == SIGABRT || s == SIGFPE || s == SIGBUS || s == SIGILL

/-- The termination-class test of `SignalHandler`:
`signal == SIGINT || signal == SIGTERM`. -/
def isTermSignal (s : Nat) : Bool :=
  s == SIGINT || s == SIGTERM

/-- The process-wide mutable state the signal handler touches: whether
the global `Log` (a `unique_ptr`) is non-null, whether the global
`g_mainLoop` pointer is non-null, whether `g_main_loop_quit` has been
requested on the loop, and the log lines written so far. -/
structure ProcState where
  logger : Bool
  loopHandle : Bool
  loopQuitRequested : Bool
  logLines : List LogEvent
  deriving DecidableEq

/-- How a `SignalHandler` invocation ends: a normal return to the
interrupted code, or `std::signal(signal, SIG_DFL); std::raise(signal);`
— the default OS disposition is restored and the signal re-raised, so
control never returns and the process terminates with the OS-defined
signal-derived status. -/
inductive HandlerOutcome where
  | returned : HandlerOutcome
  | reraisedWithDefaultDisposition (signal : Nat) : HandlerOutcome
  deriving DecidableEq

/-- Embedding of `SignalHandler(int signal)`: crash-class signals log a
critical line and flush (only if `Log` is non-null), then restore the
default disposition and re-raise; termination-class signals log an info
line (only if `Log` is non-null) and quit the main loop (only if
`g_mainLoop` is non-null); any other signal falls through both branches
and the handler just returns. -/
def SignalHandler (signal : Nat) (st : ProcState) : ProcState × HandlerOutcome :=
  if isCrashSignal signal then
    let st1 :=
      if st.logger then
        { st with logLines :=
            st.logLines ++ [LogEvent.criticalCrash signal, LogEvent.flushLogs] }
      else st
    (st1, HandlerOutcome.reraisedWithDefaultDisposition signal)
  else if isTermSignal signal then
    let st1 :=
      if st.logger then
        { st with logLines := st.logLines ++ [LogEvent.shutdownRequested signal] }
      else st
    let st2 :=
      if st.loopHandle then { st1 with loopQuitRequested := true } else st1
    (st2, HandlerOutcome.returned)
  else (st, HandlerOutcome.returned)

/-- How the blocking `g_main_loop_run(loop)` call in `main` resolves
after a signal is delivered to the running process. -/
inductive RunOutcome where
  | stillRunning : RunOutcome
  | exited (code : Int) : RunOutcome
  | terminatedBySignal (signal : Nat) : RunOutcome
  deriving DecidableEq

/-- Delivery of one signal while `main` is blocked in
`g_main_loop_run(loop)`: the handler runs in interrupt context; if it
re-raises with the default disposition the process dies with the
signal-derived status; if it returns and the loop has been told to quit,
`g_main_loop_run` returns, `main` logs the normal-exit line and returns
0; otherwise the loop keeps running. -/
def deliverSignalInLoop (signal : Nat) (st : ProcState) : ProcState × RunOutcome :=
  match SignalHandler signal st with
  | (st1, HandlerOutcome.reraisedWithDefaultDisposition sg) =>
      (st1, RunOutcome.terminatedBySignal sg)
  | (st1, HandlerOutcome.returned) =>
      if st1.loopQuitRequested then
        ({ st1 with logLines := st1.logLines ++ [LogEvent.exitingNormally] },
          RunOutcome.exited 0)
      else (st1, RunOutcome.stillRunning)

/-- C5: delivering a termination-class signal (SIGINT or SIGTERM) while
the event loop is running — logger constructed, loop handle set — stops
the loop and exits the process with status 0, appending exactly one
shutdown message (from the handler) and then exactly one normal-exit
message (from the main sequence), in that order. -/
theorem term_signal_graceful_exit (st : ProcState) (s : Nat)
    (hs : s = SIGINT ∨ s = SIGTERM)
    (hlog : st.logger = true) (hloop : st.loopHandle = true) :
    deliverSignalInLoop s st =
      ({ st with
           loopQuitRequested := true
           logLines := st.logLines ++
             [LogEvent.shutdownRequested s, LogEvent.exitingNormally] },
        RunOutcome.exited 0) := by
  obtain ⟨lg, lh, lq, ll⟩ := st
  simp only at hlog hloop
  subst hlog hloop
  rcases hs with h | h <;> subst h <;>
    simp [deliverSignalInLoop, SignalHandler, isCrashSignal, isTermSignal,
      SIGINT, SIGTERM, SIGSEGV, SIGABRT, SIGFPE, SIGBUS, SIGILL]

/-- C5 witness: SIGINT delivered with the loop running and the logger
constructed yields exit status 0 and the two log lines in order. -/
theorem term_signal_graceful_exit_witness :
    deliverSignalInLoop SIGINT
      { logger := true, loopHandle := true, loopQuitRequested := false,
        logLines := [] } =
      ({ logger := true, loopHandle := true, loopQuitRequested := true,
         logLines := [LogEvent.shutdownRequested SIGINT, LogEvent.exitingNormally] },
        RunOutcome.exited 0) := by
  have h := term_signal_graceful_exit
    { logger := true, loopHandle := true, loopQuitRequested := false, logLines := [] }
    SIGINT (Or.inl rfl) rfl rfl
  simpa using h

/-- C6: a crash-class signal makes the handler append the critical line
naming the signal followed by a flush exactly when the logger exists
(and nothing otherwise), and then restore the default OS disposition and
re-raise the signal — the handler never returns normally for this signal
class. -/
theorem crash_signal_terminates (st : ProcState) (s : Nat)
    (hs : isCrashSignal s = true) :
    (SignalHandler s st).2 = HandlerOutcome.reraisedWithDefaultDisposition s ∧
    (SignalHandler s st).1.logLines =
      st.logLines ++
        (if st.logger then [LogEvent.criticalCrash s, LogEvent.flushLogs] else []) ∧
    (SignalHandler s st).2 ≠ HandlerOutcome.returned := by
  cases hl : st.logger <;> simp [SignalHandler, hs, hl]

/-- C6 witness: SIGSEGV with a constructed logger. -/
theorem crash_signal_terminates_witness :
    (SignalHandler SIGSEGV
        { logger := true, loopHandle := true, loopQuitRequested := false,
          logLines := [] }).2 =
      HandlerOutcome.reraisedWithDefaultDisposition SIGSEGV ∧
    (SignalHandler SIGSEGV
        { logger := true, loopHandle := true, loopQuitRequested := false,
          logLines := [] }).1.logLines =
      [] ++
        (if true then [LogEvent.criticalCrash SIGSEGV, LogEvent.flushLogs] else []) ∧
    (SignalHandler SIGSEGV
        { logger := true, loopHandle := true, loopQuitRequested := false,
          logLines := [] }).2 ≠ HandlerOutcome.returned :=
  crash_signal_terminates
    { logger := true, loopHandle := true, loopQuitRequested := false, logLines := [] }
    SIGSEGV (by decide)

/-- C7: the handler tolerates unconstructed globals: for any signal it
handles, a null logger means no log line is written yet the signal-class
action still happens (re-raise with default disposition for crash-class,
a normal return for termination-class), and the loop-quit request is made
exactly when the loop handle is non-null. -/
theorem handler_tolerates_null_globals (st : ProcState) (s : Nat)
    (hs : isCrashSignal s = true ∨ isTermSignal s = true) :
    (st.logger = false → (SignalHandler s st).1.logLines = st.logLines) ∧
    (isCrashSignal s = true →
      (SignalHandler s st).2 = HandlerOutcome.reraisedWithDefaultDisposition s) ∧
    (isTermSignal s = true →
      (SignalHandler s st).2 = HandlerOutcome.returned ∧
      (SignalHandler s st).1.loopQuitRequested =
        (st.loopQuitRequested || st.loopHandle)) := by
  rcases hs with h | h
  · have ht : isTermSignal s = false := by
      simp only [isCrashSignal, SIGSEGV, SIGABRT, SIGFPE, SIGBUS, SIGILL,
        Bool.or_eq_true, beq_iff_eq] at h
      simp only [isTermSignal, SIGINT, SIGTERM, Bool.or_eq_false_iff,
        beq_eq_false_iff_ne, ne_eq]
      omega
    refine ⟨?_, fun _ => ?_, fun hterm => ?_⟩
    · intro hlg
      simp [SignalHandler, h, hlg]
    · simp [SignalHandler, h]
    · rw [ht] at hterm; exact absurd hterm (by simp)
  · have hc : isCrashSignal s = false := by
      simp only [isTermSignal, SIGINT, SIGTERM, Bool.or_eq_true, beq_iff_eq] at h
      simp only [isCrashSignal, SIGSEGV, SIGABRT, SIGFPE, SIGBUS, SIGILL,
        Bool.or_eq_false_iff, beq_eq_false_iff_ne, ne_eq]
      omega
    refine ⟨?_, fun hcr => ?_, fun _ => ?_⟩
    · intro hlg
      cases hlh : st.loopHandle <;> simp [SignalHandler, h, hc, hlg, hlh]
    · rw [hc] at hcr; exact absurd hcr (by simp)
    · cases hlh : st.loopHandle <;> cases hlg : st.logger <;>
        simp [SignalHandler, h, hc, hlh, hlg]

/-- C7 witness: SIGTERM with neither the logger nor the loop handle
constructed: nothing is logged, the handler returns, and no loop-quit is
requested. -/
theorem handler_tolerates_null_globals_witness :
    ((false : Bool) = false →
      (SignalHandler SIGTERM
          { logger := false, loopHandle := false, loopQuitRequested := false,
            logLines := [] }).1.logLines = []) ∧
    (isCrashSignal SIGTERM = true →
      (SignalHandler SIGTERM
          { logger := false, loopHandle := false, loopQuitRequested := false,
            logLines := [] }).2 =
        HandlerOutcome.reraisedWithDefaultDisposition SIGTERM) ∧
    (isTermSignal SIGTERM = true →
      (SignalHandler SIGTERM
          { logger := false, loopHandle := false, loopQuitRequested := false,
            logLines := [] }).2 = HandlerOutcome.returned ∧
      (SignalHandler SIGTERM
          { logger := false, loopHandle := false, loopQuitRequested := false,
            logLines := [] }).1.loopQuitRequested = (false || false)) :=
  handler_tolerates_null_globals
    { logger := false, loopHandle := false, loopQuitRequested := false, logLines := [] }
    SIGTERM (Or.inr (by decide))

/-- Outcome of the startup construction sequence in `main`: a fatal exit
(`return -1` after an error log) before any registration, or proceeding
to mount registration and the event loop. -/
inductive StartupStep where
  | fatalExit (code : Int) (logged : LogEvent) : StartupStep
  | proceed : StartupStep
  deriving DecidableEq

set_option linter.unusedVariables false in
/-- Embedding of the two null checks in `main` between
`gst_rtsp_server_new()` / `gst_rtsp_mount_points_new()` and the mount
registrations.  `serverOk` is whether `gst_rtsp_server_new()` returned a
non-null server, `mountPointsOk` whether `gst_rtsp_mount_points_new()`
returned a non-null registry.  Faithful to the source, the second check
tests the `server` pointer again (`if(!server)`), not `mountPoints`. -/
def startupConstruction (serverOk mountPointsOk : Bool) : StartupStep :=
  if !serverOk then StartupStep.fatalExit (-1) LogEvent.failCreateServer
  else if !serverOk then StartupStep.fatalExit (-1) LogEvent.failCreateMountPoints
  else StartupStep.proceed

/-- C2: the code diverges from the claim at the failing input.  A null
server is a fatal exit with status -1, as claimed; but with a non-null
server and a null mount-point registry, `main` does not exit — the second
guard re-tests the `server` pointer, so startup proceeds to registration
with the null registry. -/
theorem null_mount_points_not_fatal :
    startupConstruction false true =
      StartupStep.fatalExit (-1) LogEvent.failCreateServer ∧
    startupConstruction false false =
      StartupStep.fatalExit (-1) LogEvent.failCreateServer ∧
    startupConstruction true false = StartupStep.proceed := by
  decide

/-- The H.264 pipeline template string of `main`, with the single `fmt`
substitution slot `\x7b\x7d`. -/
def h264PipelineTemplate : String :=
  "( videotestsrc pattern=\x7b\x7d ! timeoverlay ! x264enc ! video/x-h264, profile=baseline ! rtph264pay name=pay0 pt=96 config-interval=-1 audiotestsrc ! alawenc ! rtppcmapay name=pay1 pt=8 )"

/-- The VP8 pipeline template string of `main`, with the single `fmt`
substitution slot `\x7b\x7d`. -/
def vp8PipelineTemplate : String :=
  "( videotestsrc pattern=\x7b\x7d ! timeoverlay ! vp8enc ! rtpvp8pay name=pay0 pt=96 audiotestsrc ! opusenc ! rtpopuspay name=pay1 pt=97 )"

/-- Character-level engine of `fmt::format(template, arg)` for a format
string with one positional slot: the first occurrence of the two-character
sequence `\x7b\x7d` is replaced by `arg`. -/
def fmtFormat1Aux : List Char → List Char → List Char
  | [], _ => []
  | [c], _ => [c]
  | c1 :: c2 :: rest, arg =>
    if c1 = '\x7b' ∧ c2 = '\x7d' then arg ++ rest
    else c1 :: fmtFormat1Aux (c2 :: rest) arg

/-- `fmt::format(template, arg)` for a one-slot format string. -/
def fmtFormat1 (template arg : String) : String :=
  String.mk (fmtFormat1Aux template.data arg.data)

/-- The transport mode handed to
`gst_rtsp_media_factory_set_transport_mode`; the program always passes
`GST_RTSP_TRANSPORT_MODE_PLAY`. -/
inductive TransportMode where
  | play : TransportMode
  deriving DecidableEq

/-- One call to `gst_rtsp_mount_points_add_factory` together with the
configuration applied to its media factory: the URL path, the launch
pipeline string, the transport mode, and the shared flag. -/
structure MountRegistration where
  urlPath : String
  pipeline : String
  transportMode : TransportMode
  shared : Bool
  deriving DecidableEq

/-- The stream catalog `createMountPoints` of `main`: the deque of
(mount name, test pattern) pairs; all other entries are commented out in
the source, leaving `{TEST, "smpte"}` with `TEST` defined as `"test"`. -/
def createMountPoints : List (String × String) := [("test", "smpte")]

/-- The two registration loops of `main`: for every catalog entry an
H.264 factory is registered under `"/" + name` (first loop, catalog
order), then for every catalog entry a VP8 factory is registered under
`"/" + name + "-vp8"` (second loop, catalog order); every factory gets
`GST_RTSP_TRANSPORT_MODE_PLAY` and `shared = TRUE`. -/
def registerMountPoints (catalog : List (String × String)) : List MountRegistration :=
  catalog.map (fun mp =>
    { urlPath := "/" ++ mp.1
      pipeline := fmtFormat1 h264PipelineTemplate mp.2
      transportMode := TransportMode.play
      shared := true }) ++
  catalog.map (fun mp =>
    { urlPath := "/" ++ mp.1 ++ "-vp8"
      pipeline := fmtFormat1 vp8PipelineTemplate mp.2
      transportMode := TransportMode.play
      shared := true })

set_option maxRecDepth 8192 in
/-- C4: registering the stream catalog `[("test", "smpte")]` against both
codec profiles yields exactly two mount registrations, H.264 first:
`"/test"` with the H.264 template's slot substituted by `"smpte"`, then
`"/test-vp8"` with the VP8 template's slot substituted by `"smpte"`,
each with PLAY-only transport mode and `shared = true`. -/
theorem catalog_registrations :
    registerMountPoints createMountPoints =
      [{ urlPath := "/test"
         pipeline := "( videotestsrc pattern=smpte ! timeoverlay ! x264enc ! video/x-h264, profile=baseline ! rtph264pay name=pay0 pt=96 config-interval=-1 audiotestsrc ! alawenc ! rtppcmapay name=pay1 pt=8 )"
         transportMode := TransportMode.play
         shared := true },
       { urlPath := "/test-vp8"
         pipeline := "( videotestsrc pattern=smpte ! timeoverlay ! vp8enc ! rtpvp8pay name=pay0 pt=96 audiotestsrc ! opusenc ! rtpopuspay name=pay1 pt=97 )"
         transportMode := TransportMode.play
         shared := true }] := by
  decide

end RtspTestServer
